import Mathlib

/-!
Verification of the hero motion controller in `src/scripts/homeMotion.ts`.

The numeric model uses `ℚ` for the purely rational computations and `ℝ`
wherever the source uses `Math.PI` / trigonometry (title-line direction,
orbit angles, base spin).  JavaScript `Math.floor` on the non-negative
values that occur here is `Nat.floor`; `Math.round` is `x ↦ ⌊x + 1/2⌋`.
`Math.random()` draws are modelled as an explicit stream `ℕ → ℚ` of
samples, each assumed to lie in `[0,1)` where a claim needs it.
-/

namespace HomeMotion

/-- Source `clamp`: `Math.min(max, Math.max(min, value))`. -/
def clamp {α : Type} [LinearOrder α] (value lo hi : α) : α :=
  min hi (max lo value)

/-- Source `lerp`: `start + (end - start) * t`. -/
def lerp {α : Type} [Ring α] (a b t : α) : α :=
  a + (b - a) * t

/-- JavaScript `Math.round` (half-up, ties toward `+∞`). -/
def jsRound (x : ℚ) : ℤ :=
  ⌊x + 1 / 2⌋

/-- A stream of `Math.random()` samples. -/
def Rng : Type := ℕ → ℚ

/-- The samples of a random stream all lie in `[0, 1)`. -/
def UnitRange (rnd : Rng) : Prop :=
  ∀ k, 0 ≤ rnd k ∧ rnd k < 1

/-! ### Orbit pause bookkeeping (source lines 339-341, 679-689, 1973-1982) -/

/-- The mutable state read by `getOrbitTime` / written by `pauseOrbit` and
`resumeOrbit`. -/
structure OrbitPauseState where
  orbitPaused : Bool
  pauseTimeOffset : ℝ
  pauseStartTime : ℝ

/-- Source `getOrbitTime`: effective time that excludes paused intervals. -/
def getOrbitTime (s : OrbitPauseState) (nowSeconds : ℝ) : ℝ :=
  if s.orbitPaused then
    nowSeconds - s.pauseTimeOffset - (nowSeconds - s.pauseStartTime)
  else
    nowSeconds - s.pauseTimeOffset

/-- Source `pauseOrbit` (guarded: a second call while paused is a no-op). -/
def pauseOrbit (s : OrbitPauseState) (nowSeconds : ℝ) : OrbitPauseState :=
  if s.orbitPaused then s
  else { orbitPaused := true, pauseTimeOffset := s.pauseTimeOffset, pauseStartTime := nowSeconds }

/-- Source `resumeOrbit` (guarded: a call while not paused is a no-op). -/
def resumeOrbit (s : OrbitPauseState) (nowSeconds : ℝ) : OrbitPauseState :=
  if s.orbitPaused then
    { orbitPaused := false
    , pauseTimeOffset := s.pauseTimeOffset + (nowSeconds - s.pauseStartTime)
    , pauseStartTime := s.pauseStartTime }
  else s

/-- Source `computeBaseSpin` (line 685-689); `reduceMotion`, `scrollProgress`
and `touchSpinOffset` are the captured mutable variables it reads. -/
noncomputable def computeBaseSpin (s : OrbitPauseState) (reduceMotion : Bool)
    (scrollProgress touchSpinOffset : ℝ) (nowSeconds speedMultiplier : ℝ) : ℝ :=
  let t := getOrbitTime s nowSeconds
  let baseRate := if reduceMotion then 0 else t * 0.17 * speedMultiplier
  baseRate + scrollProgress * Real.pi * 0.55 * speedMultiplier +
    touchSpinOffset * speedMultiplier

/-! ### Scroll energy (source lines 316, 1653, 1934) -/

/-- The `ScrollTrigger.onUpdate` step for `scrollEnergy` (line 1934). -/
def scrollUpdateEnergy (scrollEnergy velocity : ℚ) : ℚ :=
  clamp (scrollEnergy + clamp (|velocity| / 3000) 0 1) 0 2

/-- The per-frame decay of `scrollEnergy` in `draw` (line 1653). -/
def frameDecayEnergy (scrollEnergy : ℚ) : ℚ :=
  max 0 (scrollEnergy * 0.94 - 0.002)

/-- One event touching `scrollEnergy`: a `ScrollTrigger` update carrying the
scroll velocity, or an animation frame. -/
inductive EnergyEvent
  | scroll (velocity : ℚ)
  | frame
deriving Repr

/-- Run an arbitrary interleaving of scroll updates and frames. -/
def runEnergy : ℚ → List EnergyEvent → ℚ
  | e, [] => e
  | e, EnergyEvent.scroll v :: rest => runEnergy (scrollUpdateEnergy e v) rest
  | e, EnergyEvent.frame :: rest => runEnergy (frameDecayEnergy e) rest

/-! ### Motion configuration (source lines 8-45, 74-100, 169-201) -/

def ColorRGB : Type := ℤ × ℤ × ℤ

structure RingConfig where
  radiusFactor : ℚ
  ellipseRatio : ℚ
  ellipseRatioMobile : ℚ
  speedMultiplier : ℚ
  tiltOffset : ℚ
  strokeAlpha : ℚ

structure AnimationConfig where
  revealDuration : ℚ
  revealY : ℚ
  magneticScale : ℚ

structure StarsConfig where
  desktopCount : ℚ
  mobileCount : ℚ
  depth : ℚ
  baseSpeed : ℚ
  warpBoost : ℚ

structure OrbitConfig where
  start : ℚ
  full : ℚ
  radiusDesktop : ℚ
  radiusMobile : ℚ
  rings : List RingConfig

structure MotionConfig where
  sequenceHeightDesktop : ℚ
  sequenceHeightMobile : ℚ
  animation : AnimationConfig
  stars : StarsConfig
  orbit : OrbitConfig

structure PartialAnimationConfig where
  revealDuration : Option ℚ
  revealY : Option ℚ
  magneticScale : Option ℚ

structure PartialStarsConfig where
  desktopCount : Option ℚ
  mobileCount : Option ℚ
  depth : Option ℚ
  baseSpeed : Option ℚ
  warpBoost : Option ℚ

structure PartialOrbitConfig where
  start : Option ℚ
  full : Option ℚ
  radiusDesktop : Option ℚ
  radiusMobile : Option ℚ
  rings : Option (List RingConfig)

structure PartialMotionConfig where
  sequenceHeightDesktop : Option ℚ
  sequenceHeightMobile : Option ℚ
  animation : Option PartialAnimationConfig
  stars : Option PartialStarsConfig
  orbit : Option PartialOrbitConfig

/-- Source `defaultConfig` (lines 74-100). -/
def defaultConfig : MotionConfig :=
  { sequenceHeightDesktop := 520
  , sequenceHeightMobile := 470
  , animation := { revealDuration := 0.8, revealY := 24, magneticScale := 1.02 }
  , stars :=
      { desktopCount := 860, mobileCount := 500, depth := 1600
      , baseSpeed := 0.28, warpBoost := 5.1 }
  , orbit :=
      { start := 0.62, full := 0.78, radiusDesktop := 260, radiusMobile := 220
      , rings :=
          [ { radiusFactor := 0.45, ellipseRatio := 0.52, ellipseRatioMobile := 0.55
            , speedMultiplier := 1.4, tiltOffset := 0, strokeAlpha := 0.10 }
          , { radiusFactor := 0.72, ellipseRatio := 0.58, ellipseRatioMobile := 0.62
            , speedMultiplier := 1.0, tiltOffset := 0.08, strokeAlpha := 0.14 }
          , { radiusFactor := 1.0, ellipseRatio := 0.64, ellipseRatioMobile := 0.68
            , speedMultiplier := 0.7, tiltOffset := -0.06, strokeAlpha := 0.18 } ] } }

/-- The `data-motion-config` attribute as seen by `parseConfig`: absent,
present but not valid JSON (`JSON.parse` throws), or parsed into a partial
configuration. -/
inductive ConfigAttr
  | absent
  | invalid
  | parsed (p : PartialMotionConfig)

/-- Source `parseConfig` (lines 169-201): total merge of the partial
configuration over `defaultConfig`, with `defaultConfig` returned when the
attribute is absent or unparseable. -/
def parseConfig : ConfigAttr → MotionConfig
  | ConfigAttr.absent => defaultConfig
  | ConfigAttr.invalid => defaultConfig
  | ConfigAttr.parsed p =>
      { sequenceHeightDesktop := p.sequenceHeightDesktop.getD defaultConfig.sequenceHeightDesktop
      , sequenceHeightMobile := p.sequenceHeightMobile.getD defaultConfig.sequenceHeightMobile
      , animation :=
          { revealDuration :=
              (p.animation.bind PartialAnimationConfig.revealDuration).getD
                defaultConfig.animation.revealDuration
          , revealY :=
              (p.animation.bind PartialAnimationConfig.revealY).getD
                defaultConfig.animation.revealY
          , magneticScale :=
              (p.animation.bind PartialAnimationConfig.magneticScale).getD
                defaultConfig.animation.magneticScale }
      , stars :=
          { desktopCount :=
              (p.stars.bind PartialStarsConfig.desktopCount).getD
                defaultConfig.stars.desktopCount
          , mobileCount :=
              (p.stars.bind PartialStarsConfig.mobileCount).getD
                defaultConfig.stars.mobileCount
          , depth := (p.stars.bind PartialStarsConfig.depth).getD defaultConfig.stars.depth
          , baseSpeed :=
              (p.stars.bind PartialStarsConfig.baseSpeed).getD defaultConfig.stars.baseSpeed
          , warpBoost :=
              (p.stars.bind PartialStarsConfig.warpBoost).getD
                defaultConfig.stars.warpBoost }
      , orbit :=
          { start := (p.orbit.bind PartialOrbitConfig.start).getD defaultConfig.orbit.start
          , full := (p.orbit.bind PartialOrbitConfig.full).getD defaultConfig.orbit.full
          , radiusDesktop :=
              (p.orbit.bind PartialOrbitConfig.radiusDesktop).getD
                defaultConfig.orbit.radiusDesktop
          , radiusMobile :=
              (p.orbit.bind PartialOrbitConfig.radiusMobile).getD
                defaultConfig.orbit.radiusMobile
          , rings := (p.orbit.bind PartialOrbitConfig.rings).getD defaultConfig.orbit.rings } }

/-! ### Stage themes and the stage blend in `draw`
(source lines 102-136, 1674-1680) -/

structure StageTheme where
  base : ColorRGB
  hazeA : ColorRGB
  hazeB : ColorRGB
  palette : List ColorRGB

/-- Source `stageThemes` (lines 102-136): the three discrete visual stages. -/
def stageThemes : List StageTheme :=
  [ { base := (2, 3, 6), hazeA := (18, 28, 52), hazeB := (8, 18, 40)
    , palette := [(145, 154, 176), (172, 180, 198), (214, 221, 236), (255, 255, 255)] }
  , { base := (2, 4, 8), hazeA := (14, 30, 58), hazeB := (10, 24, 44)
    , palette := [(151, 161, 184), (180, 190, 210), (218, 226, 240), (255, 255, 255)] }
  , { base := (3, 5, 10), hazeA := (12, 34, 64), hazeB := (10, 23, 48)
    , palette := [(158, 166, 188), (188, 197, 218), (224, 230, 245), (255, 255, 255)] } ]

/-- The stage blend computed at the top of `draw` (lines 1674-1680), from the
configured `orbit.start` and the current `scrollProgress`.  Returns
`(stageLower, stageUpper, stageMix)`; `Math.floor` of the non-negative
`stageValue` is `Nat.floor`. -/
def drawStageBlend (ostart scrollProgress : ℚ) : ℕ × ℕ × ℚ :=
  let slideWindow := max (ostart - 0.02) 0.0001
  let slideProgress := clamp (scrollProgress / slideWindow) 0 1
  let stageValue := slideProgress * (max (stageThemes.length - 1) 1 : ℕ)
  let stageLower := ⌊stageValue⌋₊
  let stageUpper := min (stageThemes.length - 1) (stageLower + 1)
  (stageLower, stageUpper, stageValue - stageLower)

/-! ### The star pool (source lines 54-65, 203-228, 872-878, 1432-1536)

A star's `rotation` field is `Math.random() * Math.PI * 2` in the source;
since it is never read by the motion code, the embedding stores the raw
`Math.random()` sample (the rotation divided by `2π`) so that the star pool
stays inside `ℚ`. -/

structure Star where
  x : ℚ
  y : ℚ
  z : ℚ
  size : ℚ
  tint : ℚ
  prevX : ℚ
  prevY : ℚ
  initialized : Bool
  isVLogo : Bool
  rotation : ℚ
deriving Repr, DecidableEq

/-- Source `V_LOGO_CHANCE` (line 203). -/
def V_LOGO_CHANCE : ℚ := 0.13

/-- One element of the source `createStars` array (lines 205-217), built from
seven `Math.random()` draws. -/
def createStar (rnd : Rng) (depth spread : ℚ) : Star :=
  { x := (rnd 0 * 2 - 1) * spread
  , y := (rnd 1 * 2 - 1) * spread * 0.68
  , z := rnd 2 * depth + 1
  , size := rnd 3 * 1.2 + 0.45
  , tint := rnd 4
  , prevX := 0
  , prevY := 0
  , initialized := false
  , isVLogo := decide (rnd 5 < V_LOGO_CHANCE)
  , rotation := rnd 6 }

/-- Source `createStars` (lines 205-217). -/
def createStars (count : ℕ) (depth spread : ℚ) (rnd : ℕ → Rng) : List Star :=
  (List.range count).map (fun i => createStar (rnd i) depth spread)

/-- Source `resetStar` (lines 219-228): `z` is set to exactly `depth`, `x`
and `y` are resampled within the current spread, `initialized` is cleared;
`prevX` / `prevY` are left untouched. -/
def resetStar (rnd : Rng) (star : Star) (depth spread : ℚ) : Star :=
  { x := (rnd 0 * 2 - 1) * spread
  , y := (rnd 1 * 2 - 1) * spread * 0.68
  , z := depth
  , size := rnd 2 * 1.2 + 0.45
  , tint := rnd 3
  , prevX := star.prevX
  , prevY := star.prevY
  , initialized := false
  , isVLogo := decide (rnd 4 < V_LOGO_CHANCE)
  , rotation := rnd 5 }

/-- Source `rebuildStars` (lines 872-878): the final star count. -/
def rebuildStarsCount (config : MotionConfig) (isMobile lowPowerDevice : Bool) : ℤ :=
  let configuredCount := if isMobile then config.stars.mobileCount else config.stars.desktopCount
  let powerMultiplier : ℚ := if lowPowerDevice then 0.62 else 1
  max 220 (jsRound (configuredCount * powerMultiplier))

/-- The ambient values read by the `drawStarField` loop body
(lines 1441-1512): viewport, configured depth, current spread, eased mouse
position, the per-frame speed and delta, warp strength, and the
`reduceMotion` / `vStampReady` flags. -/
structure StarFieldEnv where
  width : ℚ
  height : ℚ
  depth : ℚ
  spread : ℚ
  mouseX : ℚ
  mouseY : ℚ
  speed : ℚ
  delta : ℚ
  warpStrength : ℚ
  reduceMotion : Bool
  vStampReady : Bool

/-- The per-frame depth advance `star.z -= speed * delta * (8 + star.size * 4)`
(line 1455). -/
def advanceStar (env : StarFieldEnv) (star : Star) : Star :=
  { star with z := star.z - env.speed * env.delta * (8 + star.size * 4) }

/-- The advanced star after the `z <= 1` recycle check (lines 1457-1459). -/
def starAfterRecycle (env : StarFieldEnv) (rnd : Rng) (star : Star) : Star :=
  let s := advanceStar env star
  if s.z ≤ 1 then resetStar rnd s env.depth env.spread else s

/-- The projected screen position of a star (lines 1461-1465). -/
def projectStar (env : StarFieldEnv) (star : Star) : ℚ × ℚ :=
  let centerX := env.width * 0.5
  let centerY := env.height * 0.5
  let focal := max env.width env.height * 0.94
  let projection := focal / star.z
  let depthMix := clamp (1 - star.z / env.depth) 0 1
  let parallax := 1 + depthMix * 1.8
  ( centerX + (star.x + env.mouseX * 28 * parallax) * projection
  , centerY + (star.y + env.mouseY * 24 * parallax) * projection )

/-- The 120-px offscreen test of line 1467 on a projected position. -/
def offscreenPos (env : StarFieldEnv) (pos : ℚ × ℚ) : Prop :=
  pos.1 < -120 ∨ pos.1 > env.width + 120 ∨ pos.2 < -120 ∨ pos.2 > env.height + 120

instance (env : StarFieldEnv) (pos : ℚ × ℚ) : Decidable (offscreenPos env pos) := by
  unfold offscreenPos; infer_instance

/-- What one iteration of the `drawStarField` loop did to a star. -/
structure StarStepResult where
  star : Star
  didResetDepth : Bool
  didResetOffscreen : Bool
  streak : Bool
  drewDot : Bool
  drewVStamp : Bool

/-- One iteration of the `for (const star of stars)` loop of `drawStarField`
(lines 1454-1512).  The first recycle consumes `rnd 0`-`rnd 5`; a second
recycle (offscreen right after a depth recycle) consumes `rnd 6`-`rnd 11`. -/
def starFrameStep (env : StarFieldEnv) (rnd : Rng) (star0 : Star) : StarStepResult :=
  let star1 := advanceStar env star0
  let resetDepth := decide (star1.z ≤ 1)
  let star2 := starAfterRecycle env rnd star0
  let pos := projectStar env star2
  if offscreenPos env pos then
    { star := resetStar (fun k => rnd (6 + k)) star2 env.depth env.spread
    , didResetDepth := resetDepth
    , didResetOffscreen := true
    , streak := false
    , drewDot := false
    , drewVStamp := false }
  else
    let depthMix := clamp (1 - star2.z / env.depth) 0 1
    let radius := clamp (star2.size * (0.45 + depthMix * 1.9)) 0.35 3.2
    let vSize := radius * 7
    { star := { star2 with prevX := pos.1, prevY := pos.2, initialized := true }
    , didResetDepth := resetDepth
    , didResetOffscreen := false
    , streak := decide (env.warpStrength > 0.07) && star2.initialized && !env.reduceMotion
    , drewDot := !(star2.isVLogo && env.vStampReady)
    , drewVStamp := star2.isVLogo && env.vStampReady && decide (vSize > 1.2) }

/-- A star was recycled (by either of the two `resetStar` call sites) during
its `drawStarField` iteration. -/
def starWasReset (r : StarStepResult) : Prop :=
  r.didResetDepth = true ∨ r.didResetOffscreen = true

instance (r : StarStepResult) : Decidable (starWasReset r) := by
  unfold starWasReset; infer_instance

/-- The whole `for (const star of stars)` loop, star `i` drawing from the
random stream `rnd i`. -/
def drawStarFieldLoop (env : StarFieldEnv) (rnd : ℕ → Rng) :
    List Star → ℕ → List StarStepResult
  | [], _ => []
  | s :: rest, i => starFrameStep env (rnd i) s :: drawStarFieldLoop env rnd rest (i + 1)

/-! ### Orbit ring assignment (source lines 657-677) -/

/-- `ringAttr ? parseInt(ringAttr, 10) - 1 : 1` (line 661); the `data-ring`
attribute is 1-based, so the subtraction is taken on `ℕ` under the
validity hypothesis `ValidRingAttrs`. -/
def ringIndexOfAttr : Option ℕ → ℕ
  | some k => k - 1
  | none => 1

/-- All present `data-ring` attributes are at least 1 (the attribute is
1-based), so the `parseInt(...) - 1` of the source never goes negative. -/
def ValidRingAttrs (attrs : List (Option ℕ)) : Prop :=
  ∀ a ∈ attrs, 1 ≤ a.getD 1

instance (attrs : List (Option ℕ)) : Decidable (ValidRingAttrs attrs) := by
  unfold ValidRingAttrs; infer_instance

/-- Source `nodeRingAssignments` after `assignNodesToRings` ran
(lines 658-662). -/
def nodeRingAssignments (attrs : List (Option ℕ)) : List ℕ :=
  attrs.map ringIndexOfAttr

/-- The bucket of node indices assigned to ring `r`, in DOM order
(lines 665-668). -/
def ringBucket (assignments : List ℕ) (r : ℕ) : List ℕ :=
  (List.range assignments.length).filter (fun i => assignments.getD i 0 = r)

/-- Source `orbitAngles[nodeIdx] = (posInRing / max(bucket.length, 1)) * 2π - π/2`
(lines 671-676): the base angle assigned to node `i`. -/
noncomputable def orbitAngle (attrs : List (Option ℕ)) (i : ℕ) : ℝ :=
  let assignments := nodeRingAssignments attrs
  let bucket := ringBucket assignments (assignments.getD i 0)
  let posInRing := bucket.indexOf i
  ((posInRing : ℝ) / (max bucket.length 1 : ℕ)) * Real.pi * 2 - Real.pi / 2

/-! ### Title fly-through (source lines 758-866)

All title motion lies on the 290° compass line; `LINE_RAD` is its math-angle
in radians and `(LINE_DX, LINE_DY)` the screen-space direction vector. -/

noncomputable def LINE_RAD : ℝ := (90 - 290) * (Real.pi / 180)

noncomputable def LINE_DX : ℝ := Real.cos LINE_RAD

noncomputable def LINE_DY : ℝ := -Real.sin LINE_RAD

/-- Source `getLineDist` (lines 764-767): `(entry, exit)` distances in px. -/
noncomputable def getLineDist (width : ℝ) : ℝ × ℝ :=
  (max (width * 0.42) 200, max (width * 0.32) 220)

/-- The `(tx, ty, scale, opacity)` computed for a slide. -/
structure SlideTransform where
  tx : ℝ
  ty : ℝ
  scale : ℝ
  opacity : ℝ

/-- The per-slide style written by `updateSlidesFlyThrough`: the applied
translation (after scale compensation, what goes into `style.transform`),
the raw translation before compensation, scale, opacity, and whether the
slide is the active one. -/
structure SlideStyle where
  tx : ℝ
  ty : ℝ
  rawTx : ℝ
  rawTy : ℝ
  scale : ℝ
  opacity : ℝ
  isActive : Bool

/-- The active-slide branch of `updateSlidesFlyThrough` (lines 790-844),
before scale compensation: hero slides hold then fly out; other slides fly
in, hold (the last slide holds for every `t ≥ 0.15`), then fly out. -/
noncomputable def activeSlideTransform (isHero isLastSlide : Bool)
    (entryTx entryTy exitTx exitTy : ℝ) (t : ℝ) : SlideTransform :=
  let flyInEnd : ℝ := 0.15
  let holdEnd : ℝ := 0.75
  if isHero then
    if t < holdEnd then
      { tx := 0, ty := 0, scale := 1, opacity := 1 }
    else
      let ft := (t - holdEnd) / (1.0 - holdEnd)
      let eased := ft * ft * (3 - 2 * ft)
      { tx := exitTx * eased, ty := exitTy * eased
      , scale := lerp 1.0 3.5 eased, opacity := clamp (1 - ft * 2.5) 0 1 }
  else
    if t < flyInEnd then
      let a := t / flyInEnd
      let eased := a * (2 - a)
      { tx := lerp entryTx 0 eased, ty := lerp entryTy 0 eased
      , scale := lerp 0.25 1.0 eased, opacity := clamp (eased * 1.4) 0 1 }
    else if t < holdEnd ∨ isLastSlide then
      { tx := 0, ty := 0, scale := 1, opacity := 1 }
    else
      let ft := (t - holdEnd) / (1.0 - holdEnd)
      let eased := ft * ft * (3 - 2 * ft)
      { tx := exitTx * eased, ty := exitTy * eased
      , scale := lerp 1.0 3.5 eased, opacity := clamp (1 - ft * 2.5) 0 1 }

/-- The local `eased = at * (2 - at)` of the fly-in branch (lines 820-821),
with `at = t / flyInEnd`. -/
noncomputable def flyinEased (t : ℝ) : ℝ :=
  t / 0.15 * (2 - t / 0.15)

/-- The local `ft = (t - holdEnd) / (1.0 - holdEnd)` of the fly-out branches
(lines 806, 837). -/
noncomputable def flyoutFt (t : ℝ) : ℝ :=
  (t - 0.75) / (1.0 - 0.75)

/-- The local `eased = ft * ft * (3 - 2 * ft)` of the fly-out branches
(lines 807, 838). -/
noncomputable def flyoutEased (t : ℝ) : ℝ :=
  flyoutFt t * flyoutFt t * (3 - 2 * flyoutFt t)

/-- The scale compensation of lines 849-852, applied to the active slide:
`translate(tx + scaleCompX, ty + scaleCompY)` with
`scaleCompX = -max(0, scale-1) * width * 0.18` and
`scaleCompY = -max(0, scale-1) * 8`. -/
noncomputable def applyScaleComp (width : ℝ) (s : SlideTransform) : SlideTransform :=
  let scaleExcess := max 0 (s.scale - 1)
  { tx := s.tx + (-scaleExcess * width * 0.18)
  , ty := s.ty + (-scaleExcess * 8)
  , scale := s.scale
  , opacity := s.opacity }

/-- `clamped * slides.length` of line 770-771. -/
noncomputable def scaledProgress (numSlides : ℕ) (progress : ℝ) : ℝ :=
  clamp progress 0 0.999 * numSlides

/-- The intra-slide progress `t = scaled - activeIndex` of line 773
(`Math.floor` of the non-negative `scaled` is `Nat.floor`). -/
noncomputable def intraSlideT (numSlides : ℕ) (progress : ℝ) : ℝ :=
  scaledProgress numSlides progress - ⌊scaledProgress numSlides progress⌋₊

/-- Source `updateSlidesFlyThrough` (lines 769-866): the style written to
slide `index` at the given scroll `progress`.  Parked slides (lines 854-863)
keep their raw translation (no scale compensation is applied to them). -/
noncomputable def updateSlidesFlyThrough (numSlides : ℕ) (width progress : ℝ)
    (index : ℕ) : SlideStyle :=
  let activeIndex := ⌊scaledProgress numSlides progress⌋₊
  let t := intraSlideT numSlides progress
  let dist := getLineDist width
  let entryTx := -LINE_DX * dist.1
  let entryTy := -LINE_DY * dist.1
  let exitTx := LINE_DX * dist.2
  let exitTy := LINE_DY * dist.2
  if index = activeIndex then
    let raw := activeSlideTransform (decide (index = 0)) (decide (index = numSlides - 1))
      entryTx entryTy exitTx exitTy t
    let ap := applyScaleComp width raw
    { tx := ap.tx, ty := ap.ty, rawTx := raw.tx, rawTy := raw.ty
    , scale := raw.scale, opacity := raw.opacity, isActive := true }
  else if index < activeIndex then
    { tx := exitTx, ty := exitTy, rawTx := exitTx, rawTy := exitTy
    , scale := 3.5, opacity := 0, isActive := false }
  else
    { tx := entryTx, ty := entryTy, rawTx := entryTx, rawTy := entryTy
    , scale := 0.25, opacity := 0, isActive := false }

/-! ### Concrete sample data used to instantiate theorems -/

/-- A random stream that always returns `1/2`. -/
def sampleHalf : Rng := fun _ => 1 / 2

/-- A per-star family of `sampleHalf` streams. -/
def sampleRnds : ℕ → Rng := fun _ => sampleHalf

/-- A concrete star-field environment: warp active, motion not reduced. -/
def sampleEnv : StarFieldEnv :=
  { width := 100, height := 100, depth := 1600, spread := 100
  , mouseX := 0, mouseY := 0, speed := 1, delta := 1
  , warpStrength := 1, reduceMotion := false, vStampReady := true }

/-- A concrete initialized star that stays in depth range and on screen. -/
def sampleStar : Star :=
  { x := 0, y := 0, z := 800, size := 1, tint := 0, prevX := 0, prevY := 0
  , initialized := true, isVLogo := false, rotation := 0 }

/-- A concrete initialized star whose projection lands far outside the
viewport, so `drawStarField` recycles it without drawing. -/
def farStar : Star :=
  { sampleStar with x := 10000 }

end HomeMotion

namespace HomeMotion

/-! ### Theorems -/

theorem clamp_le {α : Type} [LinearOrder α] (value lo hi : α) :
    clamp value lo hi ≤ hi :=
  min_le_left _ _

theorem le_clamp {α : Type} [LinearOrder α] (value lo hi : α) (h : lo ≤ hi) :
    lo ≤ clamp value lo hi :=
  le_min h (le_max_left _ _)

theorem scrollUpdateEnergy_nonneg (e v : ℚ) : 0 ≤ scrollUpdateEnergy e v :=
  le_clamp _ _ _ (by norm_num)

theorem scrollUpdateEnergy_le_two (e v : ℚ) : scrollUpdateEnergy e v ≤ 2 :=
  clamp_le _ _ _

theorem frameDecayEnergy_nonneg (e : ℚ) : 0 ≤ frameDecayEnergy e :=
  le_max_left _ _

theorem frameDecayEnergy_le_two (e : ℚ) (h : e ≤ 2) : frameDecayEnergy e ≤ 2 := by
  unfold frameDecayEnergy
  rw [max_le_iff]
  constructor <;> nlinarith

/-- C7: the velocity-derived energy signal `scrollEnergy` stays in `[0, 2]`
under every interleaving of `ScrollTrigger` updates (which add
`clamp (|velocity| / 3000) 0 1` and clamp the sum to `[0, 2]`) and animation
frames (which decay it to `max 0 (scrollEnergy * 0.94 - 0.002)`). -/
theorem scrollEnergy_bounded (e : ℚ) (h0 : 0 ≤ e) (h2 : e ≤ 2)
    (events : List EnergyEvent) :
    0 ≤ runEnergy e events ∧ runEnergy e events ≤ 2 := by
  induction events generalizing e with
  | nil => exact ⟨h0, h2⟩
  | cons ev rest ih =>
      cases ev with
      | scroll v =>
          exact ih _ (scrollUpdateEnergy_nonneg e v) (scrollUpdateEnergy_le_two e v)
      | frame =>
          exact ih _ (frameDecayEnergy_nonneg e) (frameDecayEnergy_le_two e h2)

theorem scrollEnergy_bounded_witness :
    0 ≤ (0 : ℚ) ∧ (0 : ℚ) ≤ 2 ∧
      (0 ≤ runEnergy 0 [EnergyEvent.scroll 9000, EnergyEvent.frame, EnergyEvent.scroll (-500)] ∧
        runEnergy 0 [EnergyEvent.scroll 9000, EnergyEvent.frame, EnergyEvent.scroll (-500)] ≤ 2) :=
  ⟨by norm_num, by norm_num,
    scrollEnergy_bounded 0 (by norm_num) (by norm_num)
      [EnergyEvent.scroll 9000, EnergyEvent.frame, EnergyEvent.scroll (-500)]⟩

theorem drawStarFieldLoop_length (env : StarFieldEnv) (rnds : ℕ → Rng) :
    ∀ (stars : List Star) (i : ℕ),
      (drawStarFieldLoop env rnds stars i).length = stars.length
  | [], _ => rfl
  | s :: rest, i => by
      simp only [drawStarFieldLoop, List.length_cons,
        drawStarFieldLoop_length env rnds rest (i + 1)]

theorem starAfterRecycle_of_le (env : StarFieldEnv) (rnd : Rng) (star : Star)
    (hz : (advanceStar env star).z ≤ 1) :
    starAfterRecycle env rnd star = resetStar rnd (advanceStar env star) env.depth env.spread := by
  simp only [starAfterRecycle]
  rw [if_pos hz]

theorem starAfterRecycle_of_gt (env : StarFieldEnv) (rnd : Rng) (star : Star)
    (hz : ¬ (advanceStar env star).z ≤ 1) :
    starAfterRecycle env rnd star = advanceStar env star := by
  simp only [starAfterRecycle]
  rw [if_neg hz]

theorem starFrameStep_eq_offscreen (env : StarFieldEnv) (rnd : Rng) (star : Star)
    (hoff : offscreenPos env (projectStar env (starAfterRecycle env rnd star))) :
    starFrameStep env rnd star =
      { star := resetStar (fun k => rnd (6 + k)) (starAfterRecycle env rnd star)
          env.depth env.spread
      , didResetDepth := decide ((advanceStar env star).z ≤ 1)
      , didResetOffscreen := true
      , streak := false
      , drewDot := false
      , drewVStamp := false } := by
  simp only [starFrameStep]
  rw [if_pos hoff]

theorem starFrameStep_eq_onscreen (env : StarFieldEnv) (rnd : Rng) (star : Star)
    (hoff : ¬ offscreenPos env (projectStar env (starAfterRecycle env rnd star))) :
    starFrameStep env rnd star =
      { star := { starAfterRecycle env rnd star with
                    prevX := (projectStar env (starAfterRecycle env rnd star)).1
                  , prevY := (projectStar env (starAfterRecycle env rnd star)).2
                  , initialized := true }
      , didResetDepth := decide ((advanceStar env star).z ≤ 1)
      , didResetOffscreen := false
      , streak := decide (env.warpStrength > 0.07) &&
          (starAfterRecycle env rnd star).initialized && !env.reduceMotion
      , drewDot := !((starAfterRecycle env rnd star).isVLogo && env.vStampReady)
      , drewVStamp := (starAfterRecycle env rnd star).isVLogo && env.vStampReady &&
          decide (clamp ((starAfterRecycle env rnd star).size *
              (0.45 + clamp (1 - (starAfterRecycle env rnd star).z / env.depth) 0 1 * 1.9))
            0.35 3.2 * 7 > 1.2) } := by
  simp only [starFrameStep]
  rw [if_neg hoff]

theorem resetStar_bounds (rnd : Rng) (star : Star) (depth spread : ℚ)
    (hrnd : UnitRange rnd) (hspread : 0 ≤ spread) :
    (resetStar rnd star depth spread).z = depth ∧
    (resetStar rnd star depth spread).initialized = false ∧
    |(resetStar rnd star depth spread).x| ≤ spread ∧
    |(resetStar rnd star depth spread).y| ≤ 0.68 * spread := by
  obtain ⟨h00, h01⟩ := hrnd 0
  obtain ⟨h10, h11⟩ := hrnd 1
  refine ⟨rfl, rfl, ?_, ?_⟩
  · show |(rnd 0 * 2 - 1) * spread| ≤ spread
    rw [abs_mul, abs_of_nonneg hspread]
    have : |rnd 0 * 2 - 1| ≤ 1 := by rw [abs_le]; constructor <;> linarith
    nlinarith [abs_nonneg (rnd 0 * 2 - 1)]
  · show |(rnd 1 * 2 - 1) * spread * 0.68| ≤ 0.68 * spread
    rw [show (rnd 1 * 2 - 1) * spread * 0.68 = (rnd 1 * 2 - 1) * (0.68 * spread) by ring,
      abs_mul, abs_of_nonneg (by linarith : (0 : ℚ) ≤ 0.68 * spread)]
    have : |rnd 1 * 2 - 1| ≤ 1 := by rw [abs_le]; constructor <;> linarith
    nlinarith [abs_nonneg (rnd 1 * 2 - 1)]

/-- C3: `drawStarField` recycles exactly the stars that pass the camera or
leave the screen.  The loop preserves the pool length; a star is recycled
via `resetStar` if and only if, after the per-frame depth advance, its `z`
is at most 1 or its projected position is more than 120 px outside the
viewport; `resetStar` sets `z` to exactly the configured depth, resamples
`x` and `y` within the current spread, and clears `initialized`; the final
`z` of a recycled star is exactly the depth and its `x`/`y` lie within the
spread; a star that is not recycled keeps its `x`, `y`, `size`, `tint`,
`isVLogo` and `rotation`, its `z` being only the depth advance. -/
theorem drawStarField_recycles_iff (env : StarFieldEnv) (rnd : Rng) (star : Star)
    (stars : List Star) (rnds : ℕ → Rng) (i : ℕ)
    (hrnd : UnitRange rnd) (hspread : 0 ≤ env.spread) :
    (drawStarFieldLoop env rnds stars i).length = stars.length ∧
    (starWasReset (starFrameStep env rnd star) ↔
      ((advanceStar env star).z ≤ 1 ∨
        offscreenPos env (projectStar env (advanceStar env star)))) ∧
    ((resetStar rnd star env.depth env.spread).z = env.depth ∧
      (resetStar rnd star env.depth env.spread).initialized = false ∧
      |(resetStar rnd star env.depth env.spread).x| ≤ env.spread ∧
      |(resetStar rnd star env.depth env.spread).y| ≤ 0.68 * env.spread) ∧
    (starWasReset (starFrameStep env rnd star) →
      (starFrameStep env rnd star).star.z = env.depth ∧
      |(starFrameStep env rnd star).star.x| ≤ env.spread ∧
      |(starFrameStep env rnd star).star.y| ≤ 0.68 * env.spread) ∧
    (¬ starWasReset (starFrameStep env rnd star) →
      (starFrameStep env rnd star).star.x = star.x ∧
      (starFrameStep env rnd star).star.y = star.y ∧
      (starFrameStep env rnd star).star.size = star.size ∧
      (starFrameStep env rnd star).star.tint = star.tint ∧
      (starFrameStep env rnd star).star.isVLogo = star.isVLogo ∧
      (starFrameStep env rnd star).star.rotation = star.rotation ∧
      (starFrameStep env rnd star).star.z = (advanceStar env star).z) := by
  have hrnd6 : UnitRange (fun k => rnd (6 + k)) := fun k => hrnd (6 + k)
  refine ⟨drawStarFieldLoop_length env rnds stars i, ?_, ?_, ?_, ?_⟩
  · by_cases hz : (advanceStar env star).z ≤ 1
    · by_cases hoff : offscreenPos env (projectStar env (starAfterRecycle env rnd star))
      · rw [starFrameStep_eq_offscreen env rnd star hoff]
        simp [starWasReset, hz]
      · rw [starFrameStep_eq_onscreen env rnd star hoff]
        simp [starWasReset, hz]
    · by_cases hoff : offscreenPos env (projectStar env (advanceStar env star))
      · rw [starFrameStep_eq_offscreen env rnd star
          (by rw [starAfterRecycle_of_gt env rnd star hz]; exact hoff)]
        simp [starWasReset, hz, hoff]
      · rw [starFrameStep_eq_onscreen env rnd star
          (by rw [starAfterRecycle_of_gt env rnd star hz]; exact hoff)]
        simp [starWasReset, hz, hoff]
  · exact resetStar_bounds rnd star env.depth env.spread hrnd hspread
  · intro hws
    by_cases hoff : offscreenPos env (projectStar env (starAfterRecycle env rnd star))
    · rw [starFrameStep_eq_offscreen env rnd star hoff]
      obtain ⟨hz', _, hx', hy'⟩ := resetStar_bounds (fun k => rnd (6 + k))
        (starAfterRecycle env rnd star) env.depth env.spread hrnd6 hspread
      exact ⟨hz', hx', hy'⟩
    · rw [starFrameStep_eq_onscreen env rnd star hoff] at hws ⊢
      have hz : (advanceStar env star).z ≤ 1 := by
        rcases hws with hd | ho
        · simpa using hd
        · simp at ho
      rw [starAfterRecycle_of_le env rnd star hz]
      obtain ⟨hz', _, hx', hy'⟩ := resetStar_bounds rnd (advanceStar env star)
        env.depth env.spread hrnd hspread
      exact ⟨hz', hx', hy'⟩
  · intro hws
    by_cases hoff : offscreenPos env (projectStar env (starAfterRecycle env rnd star))
    · exact absurd (by rw [starFrameStep_eq_offscreen env rnd star hoff]; exact Or.inr rfl) hws
    · rw [starFrameStep_eq_onscreen env rnd star hoff] at hws ⊢
      have hz : ¬ (advanceStar env star).z ≤ 1 := by
        intro hz
        exact hws (Or.inl (by simpa using hz))
      rw [starAfterRecycle_of_gt env rnd star hz]
      exact ⟨rfl, rfl, rfl, rfl, rfl, rfl, rfl⟩

theorem drawStarField_recycles_iff_witness :
    UnitRange sampleHalf ∧ (0 : ℚ) ≤ sampleEnv.spread ∧
      ((drawStarFieldLoop sampleEnv sampleRnds [sampleStar, farStar] 0).length
        = [sampleStar, farStar].length ∧
      (starWasReset (starFrameStep sampleEnv sampleHalf sampleStar) ↔
        ((advanceStar sampleEnv sampleStar).z ≤ 1 ∨
          offscreenPos sampleEnv (projectStar sampleEnv (advanceStar sampleEnv sampleStar)))) ∧
      ((resetStar sampleHalf sampleStar sampleEnv.depth sampleEnv.spread).z = sampleEnv.depth ∧
        (resetStar sampleHalf sampleStar sampleEnv.depth sampleEnv.spread).initialized = false ∧
        |(resetStar sampleHalf sampleStar sampleEnv.depth sampleEnv.spread).x| ≤
          sampleEnv.spread ∧
        |(resetStar sampleHalf sampleStar sampleEnv.depth sampleEnv.spread).y| ≤
          0.68 * sampleEnv.spread) ∧
      (starWasReset (starFrameStep sampleEnv sampleHalf sampleStar) →
        (starFrameStep sampleEnv sampleHalf sampleStar).star.z = sampleEnv.depth ∧
        |(starFrameStep sampleEnv sampleHalf sampleStar).star.x| ≤ sampleEnv.spread ∧
        |(starFrameStep sampleEnv sampleHalf sampleStar).star.y| ≤ 0.68 * sampleEnv.spread) ∧
      (¬ starWasReset (starFrameStep sampleEnv sampleHalf sampleStar) →
        (starFrameStep sampleEnv sampleHalf sampleStar).star.x = sampleStar.x ∧
        (starFrameStep sampleEnv sampleHalf sampleStar).star.y = sampleStar.y ∧
        (starFrameStep sampleEnv sampleHalf sampleStar).star.size = sampleStar.size ∧
        (starFrameStep sampleEnv sampleHalf sampleStar).star.tint = sampleStar.tint ∧
        (starFrameStep sampleEnv sampleHalf sampleStar).star.isVLogo = sampleStar.isVLogo ∧
        (starFrameStep sampleEnv sampleHalf sampleStar).star.rotation = sampleStar.rotation ∧
        (starFrameStep sampleEnv sampleHalf sampleStar).star.z =
          (advanceStar sampleEnv sampleStar).z)) :=
  ⟨fun _ => by constructor <;> norm_num [sampleHalf], by norm_num [sampleEnv],
    drawStarField_recycles_iff sampleEnv sampleHalf sampleStar [sampleStar, farStar]
      sampleRnds 0 (fun _ => by constructor <;> norm_num [sampleHalf])
      (by norm_num [sampleEnv])⟩

/-- C4 (amended): a star gets a motion streak if and only if
`warpStrength > 0.07`, the star is initialized (drawn at least once since
its last reset), reduced motion is not requested, and the star was not
recycled for being offscreen this frame; an offscreen-recycled star has
nothing drawn at all, and every other star additionally gets its body drawn
as a filled dot exactly when it is not a V-logo with the stamp ready. -/
theorem starStreak_iff (env : StarFieldEnv) (rnd : Rng) (star : Star) :
    ((starFrameStep env rnd star).streak = true ↔
      (env.warpStrength > 0.07 ∧
        (starAfterRecycle env rnd star).initialized = true ∧
        env.reduceMotion = false ∧
        (starFrameStep env rnd star).didResetOffscreen = false)) ∧
    ((starFrameStep env rnd star).didResetOffscreen = true →
      (starFrameStep env rnd star).streak = false ∧
      (starFrameStep env rnd star).drewDot = false ∧
      (starFrameStep env rnd star).drewVStamp = false) ∧
    ((starFrameStep env rnd star).didResetOffscreen = false →
      ((starFrameStep env rnd star).drewDot = true ↔
        ¬((starAfterRecycle env rnd star).isVLogo = true ∧ env.vStampReady = true))) := by
  by_cases hoff : offscreenPos env (projectStar env (starAfterRecycle env rnd star))
  · rw [starFrameStep_eq_offscreen env rnd star hoff]
    simp
  · rw [starFrameStep_eq_onscreen env rnd star hoff]
    simp [Bool.and_eq_true, Bool.not_eq_true', and_assoc]
    rcases Bool.eq_false_or_eq_true (starAfterRecycle env rnd star).isVLogo with h | h <;>
      simp [h]

theorem starStreak_iff_witness :
    ((starFrameStep sampleEnv sampleHalf sampleStar).streak = true ↔
      (sampleEnv.warpStrength > 0.07 ∧
        (starAfterRecycle sampleEnv sampleHalf sampleStar).initialized = true ∧
        sampleEnv.reduceMotion = false ∧
        (starFrameStep sampleEnv sampleHalf sampleStar).didResetOffscreen = false)) :=
  (starStreak_iff sampleEnv sampleHalf sampleStar).1

/-- C4 as stated is false: this star is advanced to `z = 788 > 1`, projects
more than 120 px outside the viewport and is therefore recycled without any
drawing, so it gets no streak even though `warpStrength > 0.07`, it is
initialized and reduced motion is off. -/
theorem starStreak_counterexample :
    sampleEnv.warpStrength > 0.07 ∧
    (starAfterRecycle sampleEnv sampleHalf farStar).initialized = true ∧
    sampleEnv.reduceMotion = false ∧
    (starFrameStep sampleEnv sampleHalf farStar).streak = false := by
  have hz : ¬ (advanceStar sampleEnv farStar).z ≤ 1 := by
    norm_num [advanceStar, sampleEnv, farStar, sampleStar]
  have hrec : starAfterRecycle sampleEnv sampleHalf farStar = advanceStar sampleEnv farStar :=
    starAfterRecycle_of_gt _ _ _ hz
  have hoff : offscreenPos sampleEnv
      (projectStar sampleEnv (starAfterRecycle sampleEnv sampleHalf farStar)) := by
    rw [hrec]
    refine Or.inr (Or.inl ?_)
    norm_num [projectStar, advanceStar, sampleEnv, farStar, sampleStar, clamp]
  refine ⟨by norm_num [sampleEnv], ?_, rfl, ?_⟩
  · rw [hrec]
    rfl
  · rw [starFrameStep_eq_offscreen sampleEnv sampleHalf farStar hoff]

/-- C5: while `orbitPaused` is true, `getOrbitTime now` is the constant
`pauseStartTime - pauseTimeOffset` for every `now`, so the time-driven term
of `computeBaseSpin` does not advance during a hover pause; and immediately
after `resumeOrbit` the orbit time equals the value it had while paused, so
rotation resumes with no jump. -/
theorem orbitPause_freezes_time (s : OrbitPauseState) (hp : s.orbitPaused = true)
    (reduceMotion : Bool) (scrollProgress touchSpinOffset : ℝ)
    (now now1 now2 resumeNow : ℝ) (speedMultiplier : ℝ) :
    getOrbitTime s now = s.pauseStartTime - s.pauseTimeOffset ∧
      computeBaseSpin s reduceMotion scrollProgress touchSpinOffset now1 speedMultiplier =
        computeBaseSpin s reduceMotion scrollProgress touchSpinOffset now2 speedMultiplier ∧
      getOrbitTime (resumeOrbit s resumeNow) resumeNow = getOrbitTime s resumeNow := by
  refine ⟨?_, ?_, ?_⟩
  · simp only [getOrbitTime, hp, if_true]
    ring
  · simp only [computeBaseSpin, getOrbitTime, hp, if_true]
    ring_nf
  · simp only [getOrbitTime, resumeOrbit, hp, if_true, Bool.false_eq_true, if_false]
    ring

/-- C9: `parseConfig` is total: an absent or unparseable `data-motion-config`
attribute yields `defaultConfig`, and a parsed partial configuration has
every missing field — including every nested field of `animation`, `stars`
and `orbit` — filled from `defaultConfig`, so the returned `MotionConfig`
always has every field populated. -/
theorem parseConfig_total_merge :
    parseConfig ConfigAttr.absent = defaultConfig ∧
    parseConfig ConfigAttr.invalid = defaultConfig ∧
    ∀ p : PartialMotionConfig,
      (parseConfig (ConfigAttr.parsed p)).sequenceHeightDesktop
          = p.sequenceHeightDesktop.getD defaultConfig.sequenceHeightDesktop ∧
      (parseConfig (ConfigAttr.parsed p)).sequenceHeightMobile
          = p.sequenceHeightMobile.getD defaultConfig.sequenceHeightMobile ∧
      (parseConfig (ConfigAttr.parsed p)).animation.revealDuration
          = (p.animation.bind PartialAnimationConfig.revealDuration).getD
              defaultConfig.animation.revealDuration ∧
      (parseConfig (ConfigAttr.parsed p)).animation.revealY
          = (p.animation.bind PartialAnimationConfig.revealY).getD
              defaultConfig.animation.revealY ∧
      (parseConfig (ConfigAttr.parsed p)).animation.magneticScale
          = (p.animation.bind PartialAnimationConfig.magneticScale).getD
              defaultConfig.animation.magneticScale ∧
      (parseConfig (ConfigAttr.parsed p)).stars.desktopCount
          = (p.stars.bind PartialStarsConfig.desktopCount).getD
              defaultConfig.stars.desktopCount ∧
      (parseConfig (ConfigAttr.parsed p)).stars.mobileCount
          = (p.stars.bind PartialStarsConfig.mobileCount).getD
              defaultConfig.stars.mobileCount ∧
      (parseConfig (ConfigAttr.parsed p)).stars.depth
          = (p.stars.bind PartialStarsConfig.depth).getD defaultConfig.stars.depth ∧
      (parseConfig (ConfigAttr.parsed p)).stars.baseSpeed
          = (p.stars.bind PartialStarsConfig.baseSpeed).getD defaultConfig.stars.baseSpeed ∧
      (parseConfig (ConfigAttr.parsed p)).stars.warpBoost
          = (p.stars.bind PartialStarsConfig.warpBoost).getD defaultConfig.stars.warpBoost ∧
      (parseConfig (ConfigAttr.parsed p)).orbit.start
          = (p.orbit.bind PartialOrbitConfig.start).getD defaultConfig.orbit.start ∧
      (parseConfig (ConfigAttr.parsed p)).orbit.full
          = (p.orbit.bind PartialOrbitConfig.full).getD defaultConfig.orbit.full ∧
      (parseConfig (ConfigAttr.parsed p)).orbit.radiusDesktop
          = (p.orbit.bind PartialOrbitConfig.radiusDesktop).getD
              defaultConfig.orbit.radiusDesktop ∧
      (parseConfig (ConfigAttr.parsed p)).orbit.radiusMobile
          = (p.orbit.bind PartialOrbitConfig.radiusMobile).getD
              defaultConfig.orbit.radiusMobile ∧
      (parseConfig (ConfigAttr.parsed p)).orbit.rings
          = (p.orbit.bind PartialOrbitConfig.rings).getD defaultConfig.orbit.rings :=
  ⟨rfl, rfl, fun _ =>
    ⟨rfl, rfl, rfl, rfl, rfl, rfl, rfl, rfl, rfl, rfl, rfl, rfl, rfl, rfl, rfl⟩⟩

/-- C10: `rebuildStars` builds a pool of
`max(220, round(configuredCount * powerMultiplier))` stars, where
`configuredCount` is the mobile or desktop count and `powerMultiplier` is
`0.62` on low-power devices and `1` otherwise; the pool length is that
count, it is always at least 220, and a configured count of 0 still yields
220 stars. -/
theorem rebuildStars_min_count (config : MotionConfig)
    (isMobile lowPowerDevice : Bool) (depth spread : ℚ) (rnd : ℕ → Rng) :
    rebuildStarsCount config isMobile lowPowerDevice =
        max 220 (jsRound
          ((if isMobile then config.stars.mobileCount else config.stars.desktopCount) *
            (if lowPowerDevice then 0.62 else 1))) ∧
    220 ≤ rebuildStarsCount config isMobile lowPowerDevice ∧
    ((if isMobile then config.stars.mobileCount else config.stars.desktopCount) = 0 →
      rebuildStarsCount config isMobile lowPowerDevice = 220) ∧
    (createStars (rebuildStarsCount config isMobile lowPowerDevice).toNat depth spread
        rnd).length
      = (rebuildStarsCount config isMobile lowPowerDevice).toNat := by
  refine ⟨rfl, le_max_left _ _, ?_, ?_⟩
  · intro h0
    unfold rebuildStarsCount
    rw [h0]
    norm_num [jsRound]
  · unfold createStars
    rw [List.length_map, List.length_range]

theorem rebuildStars_min_count_witness :
    (if true = true then
        ({ defaultConfig with
            stars := { defaultConfig.stars with mobileCount := 0 } } :
          MotionConfig).stars.mobileCount
      else
        ({ defaultConfig with
            stars := { defaultConfig.stars with mobileCount := 0 } } :
          MotionConfig).stars.desktopCount) = 0 ∧
    rebuildStarsCount
        { defaultConfig with stars := { defaultConfig.stars with mobileCount := 0 } }
        true false = 220 :=
  ⟨rfl,
    (rebuildStars_min_count
        { defaultConfig with stars := { defaultConfig.stars with mobileCount := 0 } }
        true false 1600 100 sampleRnds).2.2.1 rfl⟩

/-- C6: for every configured `orbit.start` and every scroll progress, the
stage blend of `draw` stays inside the 3-element `stageThemes` array:
`stageLower ∈ {0,1,2}`, `stageUpper = min 2 (stageLower + 1)`, both are
valid indices, and the mix factor lies in `[0, 1]`, so `drawAtmosphere`
always blends two adjacent themes and never indexes out of bounds. -/
theorem drawStageBlend_in_bounds (ostart scrollProgress : ℚ) :
    (drawStageBlend ostart scrollProgress).1 < stageThemes.length ∧
    (drawStageBlend ostart scrollProgress).2.1 < stageThemes.length ∧
    (drawStageBlend ostart scrollProgress).2.1
      = min 2 ((drawStageBlend ostart scrollProgress).1 + 1) ∧
    (drawStageBlend ostart scrollProgress).1 ≤ 2 ∧
    0 ≤ (drawStageBlend ostart scrollProgress).2.2 ∧
    (drawStageBlend ostart scrollProgress).2.2 ≤ 1 := by
  simp only [drawStageBlend]
  have hlen : stageThemes.length = 3 := rfl
  rw [hlen]
  have hm : (max (3 - 1) 1 : ℕ) = 2 := rfl
  rw [hm]
  set sp := clamp (scrollProgress / max (ostart - 0.02) 0.0001) 0 1 with hspdef
  have hsp0 : 0 ≤ sp := le_clamp _ _ _ (by norm_num)
  have hsp1 : sp ≤ 1 := clamp_le _ _ _
  have hv0 : (0 : ℚ) ≤ sp * ((2 : ℕ) : ℚ) := by positivity
  have hv2 : sp * ((2 : ℕ) : ℚ) ≤ 2 := by push_cast; linarith
  have hfloor2 : ⌊sp * ((2 : ℕ) : ℚ)⌋₊ ≤ 2 := by
    calc ⌊sp * ((2 : ℕ) : ℚ)⌋₊ ≤ ⌊(2 : ℚ)⌋₊ := Nat.floor_le_floor hv2
    _ = 2 := by norm_num
  refine ⟨by omega, ?_, rfl, hfloor2, ?_, ?_⟩
  · exact lt_of_le_of_lt (min_le_left _ _) (by norm_num)
  · have := Nat.floor_le hv0
    linarith
  · have := Nat.lt_floor_add_one (sp * ((2 : ℕ) : ℚ))
    push_cast at this ⊢
    linarith

/-- C8: `assignNodesToRings` gives every node the ring index
`data-ring - 1` (default ring index 1 when the attribute is absent), and
spaces the nodes of each ring evenly, so two distinct nodes assigned to the
same ring never receive the same base angle. -/
theorem assignNodesToRings_even_spacing (attrs : List (Option ℕ))
    (hvalid : ValidRingAttrs attrs) (i j : ℕ)
    (hi : i < attrs.length) (hj : j < attrs.length) (hij : i ≠ j)
    (hsame : (nodeRingAssignments attrs).getD i 0
      = (nodeRingAssignments attrs).getD j 0) :
    (∀ k, attrs.getD i none = some k → (nodeRingAssignments attrs).getD i 0 = k - 1) ∧
    (attrs.getD i none = none → (nodeRingAssignments attrs).getD i 0 = 1) ∧
    orbitAngle attrs i ≠ orbitAngle attrs j := by
  have hlen : (nodeRingAssignments attrs).length = attrs.length :=
    List.length_map _ _
  have hgetD : ∀ m, m < attrs.length →
      (nodeRingAssignments attrs).getD m 0 = ringIndexOfAttr (attrs.getD m none) := by
    intro m hm
    rw [List.getD_eq_getElem _ _ (hlen ▸ hm), List.getD_eq_getElem _ _ hm]
    simp [nodeRingAssignments]
  refine ⟨?_, ?_, ?_⟩
  · intro k hk
    rw [hgetD i hi, hk]
    rfl
  · intro hk
    rw [hgetD i hi, hk]
    rfl
  · set A := nodeRingAssignments attrs with hA
    set r := A.getD i 0 with hr
    have hmemB : ∀ m, m < attrs.length → A.getD m 0 = r → m ∈ ringBucket A r := by
      intro m hm hmr
      unfold ringBucket
      rw [List.mem_filter, List.mem_range]
      refine ⟨by omega, ?_⟩
      simp only [decide_eq_true_eq]
      exact hmr
    have hiB : i ∈ ringBucket A r := hmemB i hi rfl
    have hjB : j ∈ ringBucket A r := hmemB j hj hsame.symm
    have hposne : (ringBucket A r).indexOf i ≠ (ringBucket A r).indexOf j := by
      intro heq
      exact hij ((List.indexOf_inj hiB hjB).mp heq)
    have hbn : (ringBucket A r).length ≠ 0 := by
      intro h0
      rw [List.length_eq_zero] at h0
      rw [h0] at hiB
      exact absurd hiB (List.not_mem_nil i)
    have hmax : max (ringBucket A r).length 1 = (ringBucket A r).length := by omega
    intro heq
    simp only [orbitAngle] at heq
    rw [← hA, ← hsame] at heq
    apply hposne
    have hden : ((max (ringBucket A r).length 1 : ℕ) : ℝ) ≠ 0 := by
      rw [hmax]
      exact_mod_cast hbn
    have h2 : ((ringBucket A r).indexOf i : ℝ) / ((max (ringBucket A r).length 1 : ℕ) : ℝ)
        = ((ringBucket A r).indexOf j : ℝ) / ((max (ringBucket A r).length 1 : ℕ) : ℝ) := by
      have hpi := Real.pi_ne_zero
      have heq2 := sub_left_inj.mp heq
      have heq3 := mul_right_cancel₀ (two_ne_zero) heq2
      exact mul_right_cancel₀ hpi heq3
    rw [div_eq_div_iff hden hden] at h2
    have h3 := mul_right_cancel₀ hden h2
    exact_mod_cast h3

theorem assignNodesToRings_even_spacing_witness :
    ValidRingAttrs [some 1, some 1, some 2] ∧ (0 : ℕ) ≠ 1 ∧
      orbitAngle [some 1, some 1, some 2] 0 ≠ orbitAngle [some 1, some 1, some 2] 1 :=
  ⟨by decide, by decide,
    (assignNodesToRings_even_spacing [some 1, some 1, some 2] (by decide) 0 1
        (by decide) (by decide) (by decide) (by decide)).2.2⟩

theorem orbitPause_freezes_time_witness :
    (OrbitPauseState.mk true 2 5).orbitPaused = true ∧
      getOrbitTime (OrbitPauseState.mk true 2 5) 100 =
        (OrbitPauseState.mk true 2 5).pauseStartTime -
          (OrbitPauseState.mk true 2 5).pauseTimeOffset :=
  ⟨rfl,
    (orbitPause_freezes_time (OrbitPauseState.mk true 2 5) rfl false 0 0 100 0 0 0 1).1⟩

/-! ### Title fly-through lemmas -/

theorem activeSlide_flyin (isLast : Bool) (entryTx entryTy exitTx exitTy t : ℝ)
    (ht : t < 0.15) :
    activeSlideTransform false isLast entryTx entryTy exitTx exitTy t =
      { tx := lerp entryTx 0 (flyinEased t), ty := lerp entryTy 0 (flyinEased t)
      , scale := lerp 0.25 1.0 (flyinEased t)
      , opacity := clamp (flyinEased t * 1.4) 0 1 } := by
  simp only [activeSlideTransform, flyinEased, Bool.false_eq_true, if_false]
  rw [if_pos ht]

theorem activeSlide_hold (isLast : Bool) (entryTx entryTy exitTx exitTy t : ℝ)
    (h15 : ¬ t < 0.15) (hhold : t < 0.75 ∨ isLast = true) :
    activeSlideTransform false isLast entryTx entryTy exitTx exitTy t =
      { tx := 0, ty := 0, scale := 1, opacity := 1 } := by
  simp only [activeSlideTransform, Bool.false_eq_true, if_false]
  rw [if_neg h15, if_pos hhold]

theorem activeSlide_flyout (isLast : Bool) (entryTx entryTy exitTx exitTy t : ℝ)
    (h15 : ¬ t < 0.15) (hhold : ¬ (t < 0.75 ∨ isLast = true)) :
    activeSlideTransform false isLast entryTx entryTy exitTx exitTy t =
      { tx := exitTx * flyoutEased t, ty := exitTy * flyoutEased t
      , scale := lerp 1.0 3.5 (flyoutEased t)
      , opacity := clamp (1 - flyoutFt t * 2.5) 0 1 } := by
  simp only [activeSlideTransform, flyoutEased, flyoutFt, Bool.false_eq_true, if_false]
  rw [if_neg h15, if_neg hhold]

theorem activeSlide_hero_hold (isLast : Bool) (entryTx entryTy exitTx exitTy t : ℝ)
    (ht : t < 0.75) :
    activeSlideTransform true isLast entryTx entryTy exitTx exitTy t =
      { tx := 0, ty := 0, scale := 1, opacity := 1 } := by
  simp only [activeSlideTransform, eq_self_iff_true, if_true]
  rw [if_pos ht]

theorem activeSlide_hero_flyout (isLast : Bool) (entryTx entryTy exitTx exitTy t : ℝ)
    (ht : ¬ t < 0.75) :
    activeSlideTransform true isLast entryTx entryTy exitTx exitTy t =
      { tx := exitTx * flyoutEased t, ty := exitTy * flyoutEased t
      , scale := lerp 1.0 3.5 (flyoutEased t)
      , opacity := clamp (1 - flyoutFt t * 2.5) 0 1 } := by
  simp only [activeSlideTransform, flyoutEased, flyoutFt, eq_self_iff_true, if_true]
  rw [if_neg ht]

theorem flyinEased_bounds (t : ℝ) (h0 : 0 ≤ t) (h1 : t < 0.15) :
    0 ≤ flyinEased t ∧ flyinEased t ≤ 1 := by
  have ha0 : 0 ≤ t / 0.15 := by positivity
  have ha1 : t / 0.15 < 1 := (div_lt_one (by norm_num)).mpr h1
  unfold flyinEased
  constructor
  · nlinarith
  · nlinarith [sq_nonneg (1 - t / 0.15)]

theorem flyoutFt_bounds (t : ℝ) (h0 : 0.75 ≤ t) (h1 : t < 1) :
    0 ≤ flyoutFt t ∧ flyoutFt t < 1 := by
  unfold flyoutFt
  constructor
  · apply div_nonneg <;> linarith
  · rw [div_lt_one (by norm_num)]
    linarith

theorem flyoutEased_bounds (t : ℝ) (h0 : 0.75 ≤ t) (h1 : t < 1) :
    0 ≤ flyoutEased t ∧ flyoutEased t ≤ 1 := by
  obtain ⟨hf0, hf1⟩ := flyoutFt_bounds t h0 h1
  unfold flyoutEased
  constructor
  · nlinarith
  · nlinarith [mul_nonneg (sq_nonneg (1 - flyoutFt t)) (by linarith : (0:ℝ) ≤ 1 + 2 * flyoutFt t)]

theorem clamp_eq_zero_of_nonpos (v : ℝ) (hv : v ≤ 0) : clamp v 0 1 = 0 := by
  unfold clamp
  rw [max_eq_left hv, min_eq_right (by norm_num : (0:ℝ) ≤ 1)]

theorem flyout_opacity_zero (t : ℝ) (h : 0.85 ≤ t) :
    clamp (1 - flyoutFt t * 2.5) 0 1 = 0 := by
  have hft : 0.4 ≤ flyoutFt t := by
    unfold flyoutFt
    rw [le_div_iff (by norm_num : (0:ℝ) < 1.0 - 0.75)]
    linarith
  exact clamp_eq_zero_of_nonpos _ (by linarith)

/-- C1: the active-slide transform of `updateSlidesFlyThrough` passes
through exactly the claimed phases.  The intra-slide progress the function
computes always lies in `[0,1)`.  For a non-hero slide: for `t < 0.15` it
flies in, with scale `lerp 0.25 1 e` and translation `lerp` from the entry
offset to `(0,0)` along a common interpolation parameter `e ∈ [0,1]`; for
`0.15 ≤ t < 0.75` — and for the last slide for every `t ≥ 0.15` — it holds
at translation `(0,0)`, scale 1, opacity 1; otherwise it flies out with
translation `e`-scaled exit offset, scale `lerp 1 3.5 e`, opacity in
`[0,1]` reaching 0 by `t = 0.85`.  The hero slide only holds for
`t < 0.75` and then flies out the same way. -/
theorem titleSequencer_phases (isLast : Bool) (entryTx entryTy exitTx exitTy t : ℝ)
    (h0 : 0 ≤ t) (h1 : t < 1) :
    (∀ (numSlides : ℕ) (progress : ℝ),
      0 ≤ intraSlideT numSlides progress ∧ intraSlideT numSlides progress < 1) ∧
    (t < 0.15 → ∃ e, 0 ≤ e ∧ e ≤ 1 ∧
      activeSlideTransform false isLast entryTx entryTy exitTx exitTy t =
        { tx := lerp entryTx 0 e, ty := lerp entryTy 0 e
        , scale := lerp 0.25 1.0 e, opacity := clamp (e * 1.4) 0 1 }) ∧
    (0.15 ≤ t → (t < 0.75 ∨ isLast = true) →
      activeSlideTransform false isLast entryTx entryTy exitTx exitTy t =
        { tx := 0, ty := 0, scale := 1, opacity := 1 }) ∧
    (0.75 ≤ t → isLast = false → ∃ e, 0 ≤ e ∧ e ≤ 1 ∧
      (activeSlideTransform false isLast entryTx entryTy exitTx exitTy t).tx = exitTx * e ∧
      (activeSlideTransform false isLast entryTx entryTy exitTx exitTy t).ty = exitTy * e ∧
      (activeSlideTransform false isLast entryTx entryTy exitTx exitTy t).scale
        = lerp 1.0 3.5 e ∧
      0 ≤ (activeSlideTransform false isLast entryTx entryTy exitTx exitTy t).opacity ∧
      (activeSlideTransform false isLast entryTx entryTy exitTx exitTy t).opacity ≤ 1 ∧
      (0.85 ≤ t →
        (activeSlideTransform false isLast entryTx entryTy exitTx exitTy t).opacity = 0)) ∧
    (t < 0.75 →
      activeSlideTransform true isLast entryTx entryTy exitTx exitTy t =
        { tx := 0, ty := 0, scale := 1, opacity := 1 }) ∧
    (0.75 ≤ t → ∃ e, 0 ≤ e ∧ e ≤ 1 ∧
      (activeSlideTransform true isLast entryTx entryTy exitTx exitTy t).tx = exitTx * e ∧
      (activeSlideTransform true isLast entryTx entryTy exitTx exitTy t).ty = exitTy * e ∧
      (activeSlideTransform true isLast entryTx entryTy exitTx exitTy t).scale
        = lerp 1.0 3.5 e ∧
      0 ≤ (activeSlideTransform true isLast entryTx entryTy exitTx exitTy t).opacity ∧
      (activeSlideTransform true isLast entryTx entryTy exitTx exitTy t).opacity ≤ 1 ∧
      (0.85 ≤ t →
        (activeSlideTransform true isLast entryTx entryTy exitTx exitTy t).opacity = 0)) := by
  refine ⟨?_, ?_, ?_, ?_, ?_, ?_⟩
  · intro numSlides progress
    have hv : 0 ≤ scaledProgress numSlides progress := by
      unfold scaledProgress
      exact mul_nonneg (le_clamp _ _ _ (by norm_num)) (Nat.cast_nonneg _)
    unfold intraSlideT
    constructor
    · have := Nat.floor_le hv
      linarith
    · have := Nat.lt_floor_add_one (scaledProgress numSlides progress)
      linarith
  · intro ht
    obtain ⟨he0, he1⟩ := flyinEased_bounds t h0 ht
    exact ⟨flyinEased t, he0, he1, activeSlide_flyin isLast _ _ _ _ t ht⟩
  · intro ht hhold
    exact activeSlide_hold isLast _ _ _ _ t (not_lt.mpr ht) hhold
  · intro ht hlast
    have hnot : ¬ (t < 0.75 ∨ isLast = true) :=
      not_or.mpr ⟨not_lt.mpr ht, by simp [hlast]⟩
    obtain ⟨he0, he1⟩ := flyoutEased_bounds t ht h1
    rw [activeSlide_flyout isLast _ _ _ _ t (not_lt.mpr (by linarith)) hnot]
    exact ⟨flyoutEased t, he0, he1, rfl, rfl, rfl,
      le_clamp _ _ _ (by norm_num), clamp_le _ _ _,
      fun h85 => flyout_opacity_zero t h85⟩
  · intro ht
    exact activeSlide_hero_hold isLast _ _ _ _ t ht
  · intro ht
    obtain ⟨he0, he1⟩ := flyoutEased_bounds t ht h1
    rw [activeSlide_hero_flyout isLast _ _ _ _ t (not_lt.mpr ht)]
    exact ⟨flyoutEased t, he0, he1, rfl, rfl, rfl,
      le_clamp _ _ _ (by norm_num), clamp_le _ _ _,
      fun h85 => flyout_opacity_zero t h85⟩

theorem titleSequencer_phases_witness :
    (0 : ℝ) ≤ 0.5 ∧ (0.5 : ℝ) < 1 ∧ (0.15 : ℝ) ≤ 0.5 ∧
      activeSlideTransform false false 1 2 3 4 0.5 =
        { tx := 0, ty := 0, scale := 1, opacity := 1 } :=
  ⟨by norm_num, by norm_num, by norm_num,
    (titleSequencer_phases false 1 2 3 4 0.5 (by norm_num) (by norm_num)).2.2.1
      (by norm_num) (Or.inl (by norm_num))⟩

/-- Every pre-compensation translation the active-slide branch produces is a
scalar multiple of the direction `(dx, dy)` when the entry offset is
`-p * (dx, dy)` and the exit offset is `q * (dx, dy)`, as in the source. -/
theorem activeSlideTransform_online (isHero isLast : Bool) (dx dy p q t : ℝ) :
    ∃ c : ℝ,
      (activeSlideTransform isHero isLast (-dx * p) (-dy * p) (dx * q) (dy * q) t).tx
        = c * dx ∧
      (activeSlideTransform isHero isLast (-dx * p) (-dy * p) (dx * q) (dy * q) t).ty
        = c * dy := by
  cases isHero with
  | true =>
      by_cases ht : t < 0.75
      · rw [activeSlide_hero_hold isLast _ _ _ _ t ht]
        exact ⟨0, by show (0:ℝ) = 0 * dx; ring, by show (0:ℝ) = 0 * dy; ring⟩
      · rw [activeSlide_hero_flyout isLast _ _ _ _ t ht]
        exact ⟨q * flyoutEased t,
          by show dx * q * flyoutEased t = q * flyoutEased t * dx; ring,
          by show dy * q * flyoutEased t = q * flyoutEased t * dy; ring⟩
  | false =>
      by_cases h15 : t < 0.15
      · rw [activeSlide_flyin isLast _ _ _ _ t h15]
        refine ⟨-(p * (1 - flyinEased t)), ?_, ?_⟩
        · show lerp (-dx * p) 0 (flyinEased t) = -(p * (1 - flyinEased t)) * dx
          unfold lerp; ring
        · show lerp (-dy * p) 0 (flyinEased t) = -(p * (1 - flyinEased t)) * dy
          unfold lerp; ring
      · by_cases hhold : t < 0.75 ∨ isLast = true
        · rw [activeSlide_hold isLast _ _ _ _ t h15 hhold]
          exact ⟨0, by show (0:ℝ) = 0 * dx; ring, by show (0:ℝ) = 0 * dy; ring⟩
        · rw [activeSlide_flyout isLast _ _ _ _ t h15 hhold]
          exact ⟨q * flyoutEased t,
            by show dx * q * flyoutEased t = q * flyoutEased t * dx; ring,
            by show dy * q * flyoutEased t = q * flyoutEased t * dy; ring⟩

theorem applyScaleComp_tx (width : ℝ) (s : SlideTransform) :
    (applyScaleComp width s).tx = s.tx - max 0 (s.scale - 1) * width * 0.18 := by
  simp only [applyScaleComp]
  ring

theorem applyScaleComp_ty (width : ℝ) (s : SlideTransform) :
    (applyScaleComp width s).ty = s.ty - max 0 (s.scale - 1) * 8 := by
  simp only [applyScaleComp]
  ring

theorem updateSlides_eq_active (numSlides : ℕ) (width progress : ℝ) (index : ℕ)
    (h : index = ⌊scaledProgress numSlides progress⌋₊) :
    updateSlidesFlyThrough numSlides width progress index =
      { tx := (applyScaleComp width (activeSlideTransform (decide (index = 0))
            (decide (index = numSlides - 1))
            (-LINE_DX * (getLineDist width).1) (-LINE_DY * (getLineDist width).1)
            (LINE_DX * (getLineDist width).2) (LINE_DY * (getLineDist width).2)
            (intraSlideT numSlides progress))).tx
      , ty := (applyScaleComp width (activeSlideTransform (decide (index = 0))
            (decide (index = numSlides - 1))
            (-LINE_DX * (getLineDist width).1) (-LINE_DY * (getLineDist width).1)
            (LINE_DX * (getLineDist width).2) (LINE_DY * (getLineDist width).2)
            (intraSlideT numSlides progress))).ty
      , rawTx := (activeSlideTransform (decide (index = 0))
            (decide (index = numSlides - 1))
            (-LINE_DX * (getLineDist width).1) (-LINE_DY * (getLineDist width).1)
            (LINE_DX * (getLineDist width).2) (LINE_DY * (getLineDist width).2)
            (intraSlideT numSlides progress)).tx
      , rawTy := (activeSlideTransform (decide (index = 0))
            (decide (index = numSlides - 1))
            (-LINE_DX * (getLineDist width).1) (-LINE_DY * (getLineDist width).1)
            (LINE_DX * (getLineDist width).2) (LINE_DY * (getLineDist width).2)
            (intraSlideT numSlides progress)).ty
      , scale := (activeSlideTransform (decide (index = 0))
            (decide (index = numSlides - 1))
            (-LINE_DX * (getLineDist width).1) (-LINE_DY * (getLineDist width).1)
            (LINE_DX * (getLineDist width).2) (LINE_DY * (getLineDist width).2)
            (intraSlideT numSlides progress)).scale
      , opacity := (activeSlideTransform (decide (index = 0))
            (decide (index = numSlides - 1))
            (-LINE_DX * (getLineDist width).1) (-LINE_DY * (getLineDist width).1)
            (LINE_DX * (getLineDist width).2) (LINE_DY * (getLineDist width).2)
            (intraSlideT numSlides progress)).opacity
      , isActive := true } := by
  simp only [updateSlidesFlyThrough]
  rw [if_pos h]

theorem updateSlides_eq_parkedExit (numSlides : ℕ) (width progress : ℝ) (index : ℕ)
    (h1 : ¬ index = ⌊scaledProgress numSlides progress⌋₊)
    (h2 : index < ⌊scaledProgress numSlides progress⌋₊) :
    updateSlidesFlyThrough numSlides width progress index =
      { tx := LINE_DX * (getLineDist width).2, ty := LINE_DY * (getLineDist width).2
      , rawTx := LINE_DX * (getLineDist width).2, rawTy := LINE_DY * (getLineDist width).2
      , scale := 3.5, opacity := 0, isActive := false } := by
  simp only [updateSlidesFlyThrough]
  rw [if_neg h1, if_pos h2]

theorem updateSlides_eq_parkedEntry (numSlides : ℕ) (width progress : ℝ) (index : ℕ)
    (h1 : ¬ index = ⌊scaledProgress numSlides progress⌋₊)
    (h2 : ¬ index < ⌊scaledProgress numSlides progress⌋₊) :
    updateSlidesFlyThrough numSlides width progress index =
      { tx := -LINE_DX * (getLineDist width).1, ty := -LINE_DY * (getLineDist width).1
      , rawTx := -LINE_DX * (getLineDist width).1, rawTy := -LINE_DY * (getLineDist width).1
      , scale := 0.25, opacity := 0, isActive := false } := by
  simp only [updateSlidesFlyThrough]
  rw [if_neg h1, if_neg h2]

/-- C2 (amended): every translation `updateSlidesFlyThrough` computes
before scale compensation — entry parking, fly-in, hold, fly-out, exit
parking — is a scalar multiple of `(LINE_DX, LINE_DY)`; the applied
translation of the active slide additionally subtracts the scale
compensation `(max 0 (scale-1) * width * 0.18, max 0 (scale-1) * 8)`,
which vanishes whenever the scale is at most 1 (fly-in and hold); parked
slides get no compensation. -/
theorem titleLine_collinear (numSlides : ℕ) (width progress : ℝ) (index : ℕ) :
    (∃ c : ℝ,
      (updateSlidesFlyThrough numSlides width progress index).rawTx = c * LINE_DX ∧
      (updateSlidesFlyThrough numSlides width progress index).rawTy = c * LINE_DY) ∧
    ((updateSlidesFlyThrough numSlides width progress index).isActive = true →
      (updateSlidesFlyThrough numSlides width progress index).tx =
        (updateSlidesFlyThrough numSlides width progress index).rawTx -
          max 0 ((updateSlidesFlyThrough numSlides width progress index).scale - 1) *
            width * 0.18 ∧
      (updateSlidesFlyThrough numSlides width progress index).ty =
        (updateSlidesFlyThrough numSlides width progress index).rawTy -
          max 0 ((updateSlidesFlyThrough numSlides width progress index).scale - 1) * 8) ∧
    ((updateSlidesFlyThrough numSlides width progress index).isActive = false →
      (updateSlidesFlyThrough numSlides width progress index).tx =
        (updateSlidesFlyThrough numSlides width progress index).rawTx ∧
      (updateSlidesFlyThrough numSlides width progress index).ty =
        (updateSlidesFlyThrough numSlides width progress index).rawTy) ∧
    ((updateSlidesFlyThrough numSlides width progress index).scale ≤ 1 →
      (updateSlidesFlyThrough numSlides width progress index).tx =
        (updateSlidesFlyThrough numSlides width progress index).rawTx ∧
      (updateSlidesFlyThrough numSlides width progress index).ty =
        (updateSlidesFlyThrough numSlides width progress index).rawTy) := by
  by_cases hact : index = ⌊scaledProgress numSlides progress⌋₊
  · rw [updateSlides_eq_active numSlides width progress index hact]
    set raw := activeSlideTransform (decide (index = 0)) (decide (index = numSlides - 1))
      (-LINE_DX * (getLineDist width).1) (-LINE_DY * (getLineDist width).1)
      (LINE_DX * (getLineDist width).2) (LINE_DY * (getLineDist width).2)
      (intraSlideT numSlides progress) with hrawdef
    refine ⟨?_, ?_, ?_, ?_⟩
    · show ∃ c, raw.tx = c * LINE_DX ∧ raw.ty = c * LINE_DY
      rw [hrawdef]
      exact activeSlideTransform_online (decide (index = 0)) (decide (index = numSlides - 1))
        LINE_DX LINE_DY (getLineDist width).1 (getLineDist width).2
        (intraSlideT numSlides progress)
    · intro _
      exact ⟨applyScaleComp_tx width raw, applyScaleComp_ty width raw⟩
    · intro hfalse
      simp at hfalse
    · intro hscale
      have hs1 : raw.scale ≤ 1 := hscale
      have hmax : max 0 (raw.scale - 1) = 0 := max_eq_left (by linarith)
      constructor
      · show (applyScaleComp width raw).tx = raw.tx
        rw [applyScaleComp_tx width raw, hmax]
        ring
      · show (applyScaleComp width raw).ty = raw.ty
        rw [applyScaleComp_ty width raw, hmax]
        ring
  · by_cases hlt : index < ⌊scaledProgress numSlides progress⌋₊
    · rw [updateSlides_eq_parkedExit numSlides width progress index hact hlt]
      refine ⟨⟨(getLineDist width).2, by ring, by ring⟩, ?_, fun _ => ⟨rfl, rfl⟩,
        fun _ => ⟨rfl, rfl⟩⟩
      intro h
      simp at h
    · rw [updateSlides_eq_parkedEntry numSlides width progress index hact hlt]
      refine ⟨⟨-(getLineDist width).1, by ring, by ring⟩, ?_, fun _ => ⟨rfl, rfl⟩,
        fun _ => ⟨rfl, rfl⟩⟩
      intro h
      simp at h

theorem titleLine_collinear_witness :
    ∃ c : ℝ,
      (updateSlidesFlyThrough 4 1000 0.3 1).rawTx = c * LINE_DX ∧
      (updateSlidesFlyThrough 4 1000 0.3 1).rawTy = c * LINE_DY :=
  (titleLine_collinear 4 1000 0.3 1).1

theorem LINE_DX_eq : LINE_DX = -Real.cos (Real.pi / 9) := by
  unfold LINE_DX LINE_RAD
  rw [show ((90:ℝ) - 290) * (Real.pi / 180) = -(Real.pi + Real.pi / 9) by ring]
  rw [Real.cos_neg, Real.cos_add, Real.cos_pi, Real.sin_pi]
  ring

theorem LINE_DY_eq : LINE_DY = -Real.sin (Real.pi / 9) := by
  unfold LINE_DY LINE_RAD
  rw [show ((90:ℝ) - 290) * (Real.pi / 180) = -(Real.pi + Real.pi / 9) by ring]
  rw [Real.sin_neg, Real.sin_add, Real.cos_pi, Real.sin_pi]
  ring

theorem sin_pi_div_nine_gt : (0.338 : ℝ) < Real.sin (Real.pi / 9) := by
  have hpi_lo := Real.pi_gt_d6
  have hpi_hi := Real.pi_lt_d2
  have h0 : (0:ℝ) < Real.pi / 9 := by linarith
  have h1 : Real.pi / 9 ≤ 1 := by linarith
  have hx : Real.pi / 9 < 0.35 := by linarith
  have hcube : (Real.pi / 9) ^ 3 < 0.35 ^ 3 :=
    pow_lt_pow_left hx (le_of_lt h0) (by norm_num)
  have hgt := Real.sin_gt_sub_cube h0 h1
  nlinarith [hgt, hcube, hpi_lo]

/-- C2 as stated is false: at width 1000, scroll progress 0.475 (slide 1 in
fly-out, `t = 0.9`), the applied translation includes the scale
compensation and is not a scalar multiple of `(LINE_DX, LINE_DY)`. -/
theorem titleLine_collinear_counterexample :
    ¬ ∃ c : ℝ,
      (updateSlidesFlyThrough 4 1000 0.475 1).tx = c * LINE_DX ∧
      (updateSlidesFlyThrough 4 1000 0.475 1).ty = c * LINE_DY := by
  have hsc : scaledProgress 4 (0.475 : ℝ) = 1.9 := by
    unfold scaledProgress clamp
    rw [max_eq_right (by norm_num : (0:ℝ) ≤ 0.475),
      min_eq_right (by norm_num : (0.475:ℝ) ≤ 0.999)]
    push_cast
    norm_num
  have hfloor : ⌊scaledProgress 4 (0.475 : ℝ)⌋₊ = 1 := by
    rw [hsc, Nat.floor_eq_iff (by norm_num : (0:ℝ) ≤ 1.9)]
    push_cast
    norm_num
  have ht : intraSlideT 4 (0.475 : ℝ) = 0.9 := by
    unfold intraSlideT
    rw [hfloor, hsc]
    norm_num
  have hdist : getLineDist 1000 = ((420 : ℝ), (320 : ℝ)) := by
    unfold getLineDist
    rw [show (1000:ℝ) * 0.42 = 420 by norm_num, show (1000:ℝ) * 0.32 = 320 by norm_num,
      max_eq_left (by norm_num : (200:ℝ) ≤ 420), max_eq_left (by norm_num : (220:ℝ) ≤ 320)]
  have hraw : activeSlideTransform (decide ((1:ℕ) = 0)) (decide ((1:ℕ) = 4 - 1))
      (-LINE_DX * (getLineDist 1000).1) (-LINE_DY * (getLineDist 1000).1)
      (LINE_DX * (getLineDist 1000).2) (LINE_DY * (getLineDist 1000).2)
      (intraSlideT 4 (0.475 : ℝ)) =
      { tx := LINE_DX * 320 * flyoutEased 0.9, ty := LINE_DY * 320 * flyoutEased 0.9
      , scale := lerp 1.0 3.5 (flyoutEased 0.9)
      , opacity := clamp (1 - flyoutFt 0.9 * 2.5) 0 1 } := by
    rw [ht, hdist]
    rw [show (decide ((1:ℕ) = 0)) = false by rfl, show (decide ((1:ℕ) = 4 - 1)) = false by rfl]
    exact activeSlide_flyout false _ _ _ _ 0.9 (by norm_num)
      (by push_neg; exact ⟨by norm_num, by simp⟩)
  have heased : flyoutEased (0.9 : ℝ) = 0.648 := by
    unfold flyoutEased flyoutFt
    norm_num
  have hscale : lerp 1.0 3.5 (flyoutEased (0.9:ℝ)) = 2.62 := by
    rw [heased]
    unfold lerp
    norm_num
  have hst := updateSlides_eq_active 4 1000 0.475 1 hfloor.symm
  have hx : (updateSlidesFlyThrough 4 1000 0.475 1).tx = LINE_DX * 207.36 - 291.6 := by
    rw [hst]
    show (applyScaleComp 1000 _).tx = _
    rw [applyScaleComp_tx, hraw]
    show LINE_DX * 320 * flyoutEased 0.9 -
        max 0 (lerp 1.0 3.5 (flyoutEased 0.9) - 1) * 1000 * 0.18 = _
    rw [hscale, heased]
    rw [max_eq_right (by norm_num : (0:ℝ) ≤ 2.62 - 1)]
    ring
  have hy : (updateSlidesFlyThrough 4 1000 0.475 1).ty = LINE_DY * 207.36 - 12.96 := by
    rw [hst]
    show (applyScaleComp 1000 _).ty = _
    rw [applyScaleComp_ty, hraw]
    show LINE_DY * 320 * flyoutEased 0.9 -
        max 0 (lerp 1.0 3.5 (flyoutEased 0.9) - 1) * 8 = _
    rw [hscale, heased]
    rw [max_eq_right (by norm_num : (0:ℝ) ≤ 2.62 - 1)]
    ring
  rintro ⟨c, hcx, hcy⟩
  have e1 : c * LINE_DX = LINE_DX * 207.36 - 291.6 := hcx.symm.trans hx
  have e2 : c * LINE_DY = LINE_DY * 207.36 - 12.96 := hcy.symm.trans hy
  rw [LINE_DX_eq] at e1
  rw [LINE_DY_eq] at e2
  have key : (291.6 : ℝ) * Real.sin (Real.pi / 9) - 12.96 * Real.cos (Real.pi / 9) = 0 := by
    linear_combination Real.sin (Real.pi / 9) * e1 - Real.cos (Real.pi / 9) * e2
  have hs := sin_pi_div_nine_gt
  have hc := Real.cos_le_one (Real.pi / 9)
  linarith

end HomeMotion
